import Mathlib

/-!
Verification of the HTML-table parsing and record-extraction pipeline of the
Irish_virus repository (src/main.py).

Modelling conventions of the shallow embedding:
* Python floats are modelled as exact rationals (ℚ); the arithmetic the code
  performs on them (division, multiplication by 100) is carried out exactly.
* Python exceptions are modelled with Option: a construction that raises an
  uncaught exception returns none.
* A BeautifulSoup table row is modelled as the list of its td cells together
  with a flag recording whether a strong tag occurs in the row outside of any
  cell; each cell carries its full extracted text and a flag recording whether
  it contains a strong tag.  `row.strong is None` in the source corresponds to
  no strong tag anywhere in the row subtree.
* Python str.strip is modelled by pyStrip, removal of leading and trailing
  whitespace characters.
-/

/-- Python str.strip with no argument: drop leading and trailing whitespace. -/
def pyStrip (s : String) : String :=
  ⟨((s.data.dropWhile Char.isWhitespace).reverse.dropWhile Char.isWhitespace).reverse⟩

/-- The character class of the regex ([0-9.,]+) used in Information.__init__. -/
def isNumChar (c : Char) : Bool :=
  c.isDigit || c == '.' || c == ','

/-- The first match of re.findall with pattern ([0-9.,]+): the first maximal
run of characters from the class, none when the string has no such character
(index 0 of an empty findall result raises IndexError, modelled by none at the
call sites that catch it). -/
def firstRun : List Char → Option (List Char)
  | [] => none
  | c :: cs => if isNumChar c then some (c :: cs.takeWhile isNumChar) else firstRun cs

/-- Value of a big-endian list of decimal digit characters. -/
def digitsVal (l : List Char) : Nat :=
  l.foldl (fun a c => a * 10 + (c.toNat - 48)) 0

/-- Python int(m) for a string m drawn from the class [0-9.,]: succeeds exactly
when m is a nonempty run of plain digits, otherwise raises ValueError (none). -/
def pyIntOfRun (m : List Char) : Option Nat :=
  if m.all Char.isDigit && !m.isEmpty then some (digitsVal m) else none

/-- Python float(m) for a string m drawn from the class [0-9.,]: succeeds
exactly when m has no comma, at least one digit and at most one decimal point;
the value is the exact rational the literal denotes. -/
def pyFloatOfRun (m : List Char) : Option ℚ :=
  if m.any (fun c => c == ',') then none
  else if !(m.any Char.isDigit) then none
  else if 1 < (m.filter (fun c => c == '.')).length then none
  else
    let ip := m.takeWhile (fun c => c != '.')
    let fp := (m.dropWhile (fun c => c != '.')).drop 1
    some ((digitsVal ip : ℚ) + (digitsVal fp : ℚ) / (10 : ℚ) ^ fp.length)

/-- The count extraction of Information.__init__:
int(re.findall(r"([0-9.,]+)", number)[0]), with IndexError (no match) caught
and turned into 0; a ValueError from int propagates (none). -/
def extractInt (s : String) : Option Nat :=
  match firstRun s.data with
  | none => some 0
  | some m => pyIntOfRun m

/-- The rate extraction of Information.__init__:
float(re.findall(r"([0-9.,]+)", rate)[0]), with IndexError caught and turned
into 0; a ValueError from float propagates (none). -/
def extractFloat (s : String) : Option ℚ :=
  match firstRun s.data with
  | none => some 0
  | some m => pyFloatOfRun m

/-- The Information class of src/main.py: one record of the snapshot. -/
structure Information where
  description : String
  number : Nat
  rate : ℚ
  info_type : String
deriving DecidableEq, Repr

/-- Information.__init__: builds a record from the four raw strings, parsing
the count first and then the rate; none models an uncaught ValueError. -/
def Information.init (description number rate info_type : String) :
    Option Information := do
  let n ← extractInt number
  let r ← extractFloat rate
  pure ⟨description, n, r, info_type⟩

/-- Decimal rendering of a natural number, Python str(int) on the
nonnegative integers the pipeline produces. -/
def natRepr (n : Nat) : String :=
  ⟨if n = 0 then [Nat.digitChar 0] else (Nat.digits 10 n).reverse.map Nat.digitChar⟩

/-- Round to the nearest integer, ties to the even integer, as Python's float
formatting does (the binary double is modelled by the exact rational). -/
def roundHalfEven (q : ℚ) : ℤ :=
  let f := ⌊q⌋
  let r := q - f
  if r < 1/2 then f else if 1/2 < r then f + 1 else if f % 2 = 0 then f else f + 1

/-- The fractional part of the 3-decimal rendering, zero-padded to width 3. -/
def pad3 (n : Nat) : String :=
  (if n < 10 then ("00") else if n < 100 then ("0") else ("")) ++ natRepr n

/-- Python "{:.3f}".format(x): sign, integer part, point, three decimals. -/
def fmt3 (q : ℚ) : String :=
  let m := (roundHalfEven (|q| * 1000)).toNat
  (if q < 0 then ("-") else ("")) ++
    natRepr (m / 1000) ++ (".") ++ pad3 (m % 1000)

/-- Information.__str__: the display rendering
category - description: count (rate with three decimals, percent sign). -/
def Information.toDisplayString (i : Information) : String :=
  i.info_type ++ (" - ") ++ i.description ++ (": ") ++ natRepr i.number ++
    (" (") ++ fmt3 i.rate ++ ("%)")

/-- A td cell of an HTML table row: its extracted text (bs4 .text, before
stripping) and whether a strong tag occurs inside it. -/
structure Cell where
  raw : String
  hasStrong : Bool
deriving DecidableEq, Repr

/-- A tr row of an HTML table: its td cells, and whether a strong tag occurs
in the row outside every td (row.strong searches the whole tr subtree). -/
structure HtmlRow where
  cells : List Cell
  strongOutsideCells : Bool
deriving DecidableEq, Repr

/-- row.strong is not None: some strong tag occurs anywhere in the row. -/
def rowHasStrong (r : HtmlRow) : Bool :=
  r.strongOutsideCells || r.cells.any (·.hasStrong)

/-- The result dictionary of parse_html_table, keys cols and data. -/
structure TableData where
  cols : List (List String)
  data : List (List String)
deriving DecidableEq, Repr

/-- The stripped texts of the cells of one row (the td filter `if el` of the
source is vacuous: a td tag is always truthy). -/
def rowTexts (r : HtmlRow) : List String :=
  r.cells.map (fun c => pyStrip c.raw)

/-- parse_html_table: each row goes to cols when it contains a strong tag,
otherwise to data, keeping document order; cell texts are stripped. -/
def parse_html_table : List HtmlRow → TableData
  | [] => ⟨[], []⟩
  | r :: rest =>
    let t := parse_html_table rest
    if rowHasStrong r then ⟨rowTexts r :: t.cols, t.data⟩
    else ⟨t.cols, rowTexts r :: t.data⟩

/-- clean_table_title: the stripped text of an h2 heading. -/
def clean_table_title (title : String) : String :=
  pyStrip title

/-- The body of the data-row loop of load_file: extend the row with empty
strings to length 3, then build the Information from its first three cells. -/
def rowRecord (row : List String) (title : String) : Option Information :=
  let padded := row ++ List.replicate (3 - row.length) ("")
  Information.init (padded.getD 0 ("")) (padded.getD 1 ("")) (padded.getD 2 ("")) title

/-- All records of one parsed table under one cleaned heading. -/
def tableRecords (t : TableData) (title : String) : Option (List Information) :=
  t.data.mapM (fun row => rowRecord row title)

/-- The record-extraction phase of load_file: zip the parsed tables with the
cleaned h2 headings positionally and collect the data-row records in order. -/
def extractRecords (tables : List (List HtmlRow)) (headings : List String) :
    Option (List Information) :=
  (((tables.map parse_html_table).zip (headings.map clean_table_title)).mapM
      (fun p => tableRecords p.1 p.2)).map List.flatten

/-- "county" in el.info_type: substring test selecting the regional records. -/
def isCounty (r : Information) : Bool :=
  decide (("county").data <:+: r.info_type.data)

/-- number_cases: the sum of the counts of the county records. -/
def countyTotal (rs : List Information) : Nat :=
  ((rs.filter isCounty).map (·.number)).sum

/-- One iteration of the county loop of load_file:
county.rate = county.number / number_cases * 100 on the county records. -/
def updateCountyRate (total : Nat) (r : Information) : Information :=
  if isCounty r then { r with rate := (r.number : ℚ) / (total : ℚ) * 100 } else r

/-- The rate-recomputation pass of load_file: overwrite the rate of every
county record with count / total * 100; when a county record exists and the
total is zero the first loop iteration divides by zero (none). -/
def recomputeRates (rs : List Information) : Option (List Information) :=
  if rs.any isCounty && countyTotal rs == 0 then none
  else some (rs.map (updateCountyRate (countyTotal rs)))

/-- An input document: its table nodes and its h2 heading texts, each in
document order. -/
structure Document where
  tables : List (List HtmlRow)
  headings : List String
deriving Repr

/-- load_file on an already parsed document: extract the records, then run the
county rate recomputation; none models an uncaught exception. -/
def load_file (d : Document) : Option (List Information) :=
  (extractRecords d.tables d.headings).bind recomputeRates

/-! ### Helper lemmas about the numeric extraction -/

theorem firstRun_eq_none (l : List Char) (h : ∀ c ∈ l, isNumChar c = false) :
    firstRun l = none := by
  induction l with
  | nil => rfl
  | cons c cs ih =>
    have hc := h c (List.mem_cons_self c cs)
    simp only [firstRun, hc, Bool.false_eq_true, if_false]
    exact ih (fun x hx => h x (List.mem_cons_of_mem c hx))

theorem extractInt_eq_zero (s : String) (h : ∀ c ∈ s.data, isNumChar c = false) :
    extractInt s = some 0 := by
  simp only [extractInt, firstRun_eq_none s.data h]

theorem extractFloat_eq_zero (s : String) (h : ∀ c ∈ s.data, isNumChar c = false) :
    extractFloat s = some 0 := by
  simp only [extractFloat, firstRun_eq_none s.data h]

/-- C1 (amended): for every count-text all of whose characters lie outside the
regex class [0-9.,] (in particular it contains no digit sequence), and likewise
for the rate-text, Record construction succeeds with count = 0 and rate = 0 and
no error is raised.  (As frozen the claim fails: a count-text such as "." has
no digit sequence yet makes int raise an uncaught ValueError, see the
counterexample.) -/
theorem c1_parse_failure_defaults_to_zero (d cnt rt ty : String)
    (hc : ∀ c ∈ cnt.data, isNumChar c = false)
    (hr : ∀ c ∈ rt.data, isNumChar c = false) :
    Information.init d cnt rt ty = some ⟨d, 0, 0, ty⟩ := by
  simp only [Information.init, extractInt_eq_zero cnt hc, extractFloat_eq_zero rt hr,
    Option.bind_eq_bind, Option.bind_some]
  rfl

/-- Witness for C1 (amended) at count-text "no cases" and rate-text "n/a". -/
theorem c1_parse_failure_defaults_to_zero_witness :
    (∀ c ∈ ("no cases").data, isNumChar c = false) ∧
    (∀ c ∈ ("n/a").data, isNumChar c = false) ∧
    Information.init ("x") ("no cases") ("n/a") ("cases") =
      some ⟨("x"), 0, 0, ("cases")⟩ :=
  ⟨by decide, by decide,
    c1_parse_failure_defaults_to_zero ("x") ("no cases") ("n/a") ("cases")
      (by decide) (by decide)⟩

/-- C1 counterexample: the count-text "." contains no digit sequence, yet the
constructor does not yield count = 0: the regex matches the run "." and
int(".") raises an uncaught ValueError, so construction fails. -/
theorem c1_counterexample :
    (∀ c ∈ (".").data, c.isDigit = false) ∧
    Information.init ("x") (".") ("0") ("t") = none := by
  decide

/-- C4: for the well-formed thousands-separated numeric string "1,234" the
regex does capture the whole run "1,234", but int("1,234") raises an uncaught
ValueError: construction fails instead of yielding count = 1234.  The code
contradicts the intended separator normalization (the regex includes the
separator characters precisely to capture such numbers). -/
theorem c4_thousands_separator_raises :
    firstRun (("1,234").data) = some (("1,234").data) ∧
    Information.init ("x") ("1,234") ("") ("t") = none := by
  decide

/-! ### Row padding and Record construction from data rows -/

/-- C6: a data row with fewer than 3 cells is right-padded with empty strings
to exactly 3 cells before Record construction; for a 2-cell row the record is
built from cell 1 as description, cell 2 as count-text and the padded empty
string as rate-text, so on success the description is kept verbatim, the rate
is 0 and the count is the numeric extraction of cell 2. -/
theorem c6_short_row_padded (row : List String) (t : String)
    (hlt : row.length < 3) :
    (row ++ List.replicate (3 - row.length) ("")).length = 3 ∧
    (∀ d c, row = [d, c] →
      rowRecord row t = Information.init d c ("") t ∧
      ∀ j, rowRecord row t = some j →
        j.description = d ∧ j.rate = 0 ∧ extractInt c = some j.number) := by
  constructor
  · simp only [List.length_append, List.length_replicate]
    omega
  · rintro d c rfl
    refine ⟨rfl, ?_⟩
    intro j hj
    have hj' : Information.init d c ("") t = some j := hj
    simp only [Information.init, Option.bind_eq_bind] at hj'
    cases hn : extractInt c with
    | none => rw [hn] at hj'; simp at hj'
    | some n =>
      rw [hn] at hj'
      have hf : extractFloat ("") = some 0 := rfl
      rw [hf] at hj'
      simp only [Option.some_bind, Option.pure_def, Option.some.injEq] at hj'
      subst hj'
      exact ⟨rfl, rfl, rfl⟩

/-- Witness for C6 at the 2-cell row [Dublin, 10]. -/
theorem c6_short_row_padded_witness :
    (([("Dublin"), ("10")] : List String).length < 3) ∧
    (([("Dublin"), ("10")] ++ List.replicate (3 - ([("Dublin"), ("10")] : List String).length) ("")).length = 3 ∧
    (∀ d c, [("Dublin"), ("10")] = [d, c] →
      rowRecord [("Dublin"), ("10")] ("cases by county") = Information.init d c ("") ("cases by county") ∧
      ∀ j, rowRecord [("Dublin"), ("10")] ("cases by county") = some j →
        j.description = d ∧ j.rate = 0 ∧ extractInt c = some j.number)) :=
  ⟨by decide, c6_short_row_padded [("Dublin"), ("10")] ("cases by county") (by decide)⟩

/-- C10: a data row with three or more cells builds its Record from the first
three cells only; the cells beyond the third have no effect and cause no
error. -/
theorem c10_extra_cells_ignored (row extra : List String) (t : String)
    (h3 : row.length = 3) :
    rowRecord (row ++ extra) t = rowRecord row t ∧
    rowRecord row t =
      Information.init (row.getD 0 ("")) (row.getD 1 ("")) (row.getD 2 ("")) t := by
  match row, h3 with
  | [a, b, c], _ =>
    constructor
    · show rowRecord (a :: b :: c :: extra) t = rowRecord [a, b, c] t
      have hz : 3 - (a :: b :: c :: extra).length = 0 := by
        simp only [List.length_cons]; omega
      simp only [rowRecord, hz, List.replicate, List.append_nil, List.getD_cons_zero,
        List.getD_cons_succ]
    · rfl

/-- Witness for C10 at a 4-cell row. -/
theorem c10_extra_cells_ignored_witness :
    (([("Dublin"), ("10"), ("2.5")] : List String).length = 3) ∧
    (rowRecord ([("Dublin"), ("10"), ("2.5")] ++ [("extra")]) ("t") =
      rowRecord [("Dublin"), ("10"), ("2.5")] ("t") ∧
    rowRecord [("Dublin"), ("10"), ("2.5")] ("t") =
      Information.init (([("Dublin"), ("10"), ("2.5")] : List String).getD 0 (""))
        (([("Dublin"), ("10"), ("2.5")] : List String).getD 1 (""))
        (([("Dublin"), ("10"), ("2.5")] : List String).getD 2 ("")) ("t")) :=
  ⟨by decide, c10_extra_cells_ignored [("Dublin"), ("10"), ("2.5")] [("extra")] ("t") (by decide)⟩

/-! ### Header and data row classification (parse_html_table) -/

/-- C7: parse_html_table sends a row to cols exactly when some strong (bold)
element occurs anywhere in the row and to data otherwise, preserving document
order, and each emitted cell text is the whitespace-stripped text of the
corresponding td cell. -/
theorem c7_header_row_classification (t : List HtmlRow) :
    (parse_html_table t).cols =
      (t.filter rowHasStrong).map (fun r => r.cells.map (fun c => pyStrip c.raw)) ∧
    (parse_html_table t).data =
      (t.filter (fun r => !(rowHasStrong r))).map
        (fun r => r.cells.map (fun c => pyStrip c.raw)) := by
  induction t with
  | nil => exact ⟨rfl, rfl⟩
  | cons r rest ih =>
    cases hs : rowHasStrong r with
    | true =>
      simp only [parse_html_table, hs, if_true, List.filter_cons, Bool.not_true,
        Bool.false_eq_true, if_false, List.map_cons, ih.1, ih.2]
      refine ⟨?_, ?_⟩ <;> (first | rfl | trivial)
    | false =>
      simp only [parse_html_table, hs, Bool.false_eq_true, if_false, List.filter_cons,
        Bool.not_false, if_true, List.map_cons, ih.1, ih.2]
      refine ⟨?_, ?_⟩ <;> (first | rfl | trivial)

/-! ### The unguarded zero-total division in the county rate pass -/

/-- C3: a document with one county table whose single data row carries the
count 0 extracts a county record, the county counts sum to zero, and load
fails on the unguarded division county.number / number_cases instead of
leaving the rates at 0 or skipping the step. -/
theorem c3_zero_total_division_by_zero :
    extractRecords [[⟨[⟨("Dublin"), false⟩, ⟨("0"), false⟩], false⟩]]
        [("Cases by county")] =
      some [⟨("Dublin"), 0, 0, ("Cases by county")⟩] ∧
    isCounty ⟨("Dublin"), 0, 0, ("Cases by county")⟩ = true ∧
    countyTotal [⟨("Dublin"), 0, 0, ("Cases by county")⟩] = 0 ∧
    load_file ⟨[[⟨[⟨("Dublin"), false⟩, ⟨("0"), false⟩], false⟩]],
        [("Cases by county")]⟩ = none := by
  decide

/-! ### Positional pairing of tables and headings -/

theorem zip_append_right {α β : Type} (l₁ : List α) (l₂ r : List β)
    (h : l₁.length ≤ l₂.length) : l₁.zip (l₂ ++ r) = l₁.zip l₂ := by
  induction l₁ generalizing l₂ with
  | nil => simp
  | cons a as ih =>
    cases l₂ with
    | nil => simp at h
    | cons b bs =>
      simp only [List.cons_append, List.zip_cons_cons, List.cons.injEq]
      exact ⟨trivial, ih bs (Nat.le_of_succ_le_succ h)⟩

theorem zip_append_left {α β : Type} (l₁ r : List α) (l₂ : List β)
    (h : l₂.length ≤ l₁.length) : (l₁ ++ r).zip l₂ = l₁.zip l₂ := by
  induction l₁ generalizing l₂ with
  | nil =>
    have hnil : l₂ = [] := List.eq_nil_of_length_eq_zero (Nat.le_zero.mp h)
    subst hnil
    simp
  | cons a as ih =>
    cases l₂ with
    | nil => simp
    | cons b bs =>
      simp only [List.cons_append, List.zip_cons_cons, List.cons.injEq]
      exact ⟨trivial, ih bs (Nat.le_of_succ_le_succ h)⟩

theorem zip_eq_zip_take {α β : Type} (l₁ : List α) (l₂ : List β) :
    l₁.zip l₂ =
      (l₁.take (min l₁.length l₂.length)).zip (l₂.take (min l₁.length l₂.length)) := by
  induction l₁ generalizing l₂ with
  | nil => simp
  | cons a as ih =>
    cases l₂ with
    | nil => simp
    | cons b bs =>
      simp only [List.length_cons, Nat.succ_min_succ, List.take_succ_cons,
        List.zip_cons_cons, List.cons.injEq]
      exact ⟨trivial, ih bs⟩

/-- C5: the i-th parsed table is paired with the i-th cleaned heading and the
pairing stops at the shorter sequence length: both sequences may always be
truncated to their common length without changing the result, a trailing
unmatched heading produces no record and no error, and a trailing unmatched
table likewise produces no record and no error. -/
theorem c5_positional_pairing_truncates (tables : List (List HtmlRow))
    (headings : List String) :
    extractRecords tables headings =
      extractRecords (tables.take (min tables.length headings.length))
        (headings.take (min tables.length headings.length)) ∧
    (∀ h, tables.length ≤ headings.length →
      extractRecords tables (headings ++ [h]) = extractRecords tables headings) ∧
    (∀ t, headings.length ≤ tables.length →
      extractRecords (tables ++ [t]) headings = extractRecords tables headings) := by
  refine ⟨?_, ?_, ?_⟩
  · unfold extractRecords
    rw [List.map_take, List.map_take, ← List.length_map tables parse_html_table,
      ← List.length_map headings clean_table_title, ← zip_eq_zip_take]
  · intro h hle
    unfold extractRecords
    rw [List.map_append, zip_append_right]
    simp only [List.length_map]
    exact hle
  · intro t hle
    unfold extractRecords
    rw [List.map_append, zip_append_left]
    simp only [List.length_map]
    exact hle

/-- Witness for C5 at one table and one heading: truncation to the common
length 1 changes nothing, a trailing orphan heading is dropped, and a trailing
orphan table is dropped. -/
theorem c5_positional_pairing_truncates_witness :
    (([[⟨[⟨("Dublin"), false⟩, ⟨("7"), false⟩], false⟩]] : List (List HtmlRow)).length ≤
      ([("Cases by county")] : List String).length) ∧
    (([("Cases by county")] : List String).length ≤
      ([[⟨[⟨("Dublin"), false⟩, ⟨("7"), false⟩], false⟩]] : List (List HtmlRow)).length) ∧
    extractRecords [[⟨[⟨("Dublin"), false⟩, ⟨("7"), false⟩], false⟩]]
        [("Cases by county")] =
      extractRecords
        (([[⟨[⟨("Dublin"), false⟩, ⟨("7"), false⟩], false⟩]] : List (List HtmlRow)).take
          (min 1 1))
        (([("Cases by county")] : List String).take (min 1 1)) ∧
    extractRecords [[⟨[⟨("Dublin"), false⟩, ⟨("7"), false⟩], false⟩]]
        ([("Cases by county")] ++ [("orphan heading")]) =
      extractRecords [[⟨[⟨("Dublin"), false⟩, ⟨("7"), false⟩], false⟩]]
        [("Cases by county")] ∧
    extractRecords
        ([[⟨[⟨("Dublin"), false⟩, ⟨("7"), false⟩], false⟩]] ++
          [[⟨[⟨("Cork"), false⟩, ⟨("3"), false⟩], false⟩]])
        [("Cases by county")] =
      extractRecords [[⟨[⟨("Dublin"), false⟩, ⟨("7"), false⟩], false⟩]]
        [("Cases by county")] :=
  ⟨by decide, by decide,
    (c5_positional_pairing_truncates [[⟨[⟨("Dublin"), false⟩, ⟨("7"), false⟩], false⟩]]
      [("Cases by county")]).1,
    (c5_positional_pairing_truncates [[⟨[⟨("Dublin"), false⟩, ⟨("7"), false⟩], false⟩]]
      [("Cases by county")]).2.1 ("orphan heading") (by decide),
    (c5_positional_pairing_truncates [[⟨[⟨("Dublin"), false⟩, ⟨("7"), false⟩], false⟩]]
      [("Cases by county")]).2.2 [⟨[⟨("Cork"), false⟩, ⟨("3"), false⟩], false⟩] (by decide)⟩

/-! ### The county rate recomputation pass -/

theorem isCounty_updateCountyRate (T : Nat) (r : Information) :
    isCounty (updateCountyRate T r) = isCounty r := by
  unfold updateCountyRate
  split <;> simp [isCounty]

theorem sum_map_div_mul (l : List Information) (T : ℚ) :
    (l.map (fun r => (r.number : ℚ) / T * 100)).sum =
      ((l.map (fun r => (r.number : ℚ))).sum) / T * 100 := by
  induction l with
  | nil => simp
  | cons a as ih =>
    simp only [List.map_cons, List.sum_cons, ih, add_div, add_mul]

theorem recomputeRates_eq_map (rs ws : List Information)
    (h : recomputeRates rs = some ws) :
    ws = rs.map (updateCountyRate (countyTotal rs)) := by
  unfold recomputeRates at h
  by_cases hc : (rs.any isCounty && countyTotal rs == 0) = true
  · rw [if_pos hc] at h
    exact absurd h (by simp)
  · rw [if_neg hc] at h
    exact (Option.some.inj h).symm

/-- C2: whenever the recomputation pass of a loaded snapshot succeeds, every
county-marked record ends with rate = count / (total county count) * 100, and
when that total is positive the county rates sum to exactly 100 (the
arithmetic is carried out on exact rationals). -/
theorem c2_county_rates_sum_to_100 (rs ws : List Information)
    (h : recomputeRates rs = some ws) :
    ws.length = rs.length ∧
    (∀ (i : ℕ) (h1 : i < rs.length) (h2 : i < ws.length),
      isCounty rs[i] = true →
        ws[i].rate = (rs[i].number : ℚ) / (countyTotal rs : ℚ) * 100) ∧
    (0 < countyTotal rs →
      ((ws.filter isCounty).map (fun r => r.rate)).sum = 100) := by
  have hws := recomputeRates_eq_map rs ws h
  subst hws
  refine ⟨List.length_map rs _, ?_, ?_⟩
  · intro i h1 h2 hcty
    rw [List.getElem_map]
    simp only [updateCountyRate, hcty, if_true]
  · intro hT
    have hT' : (countyTotal rs : ℚ) ≠ 0 :=
      Nat.cast_ne_zero.mpr (Nat.pos_iff_ne_zero.mp hT)
    rw [List.filter_map]
    have hpred : rs.filter (isCounty ∘ updateCountyRate (countyTotal rs)) =
        rs.filter isCounty := by
      apply List.filter_congr
      intro r _
      exact isCounty_updateCountyRate (countyTotal rs) r
    rw [hpred, List.map_map]
    have hrate : (rs.filter isCounty).map
          ((fun r => r.rate) ∘ updateCountyRate (countyTotal rs)) =
        (rs.filter isCounty).map (fun r => (r.number : ℚ) / (countyTotal rs : ℚ) * 100) := by
      apply List.map_congr_left
      intro r hr
      have hcty : isCounty r = true := (List.mem_filter.mp hr).2
      simp only [Function.comp, updateCountyRate, hcty, if_true]
    rw [hrate, sum_map_div_mul]
    have hnum : ((rs.filter isCounty).map (fun r => ((r.number : ℚ)))).sum =
        (countyTotal rs : ℚ) := by
      rw [countyTotal, Nat.cast_list_sum, List.map_map]
      rfl
    rw [hnum, div_self hT', one_mul]

/-- Witness for C2 at the spec scenario: county counts Dublin 10, Cork 5,
Clare 0 give rates 200/3, 100/3 and 0, which sum to 100. -/
theorem c2_county_rates_sum_to_100_witness :
    recomputeRates
        [⟨("Dublin"), 10, 0, ("Cases by county")⟩,
         ⟨("Cork"), 5, 0, ("Cases by county")⟩,
         ⟨("Clare"), 0, 0, ("Cases by county")⟩] =
      some
        [⟨("Dublin"), 10, (200/3 : ℚ), ("Cases by county")⟩,
         ⟨("Cork"), 5, (100/3 : ℚ), ("Cases by county")⟩,
         ⟨("Clare"), 0, 0, ("Cases by county")⟩] ∧
    (([⟨("Dublin"), 10, (200/3 : ℚ), ("Cases by county")⟩,
       ⟨("Cork"), 5, (100/3 : ℚ), ("Cases by county")⟩,
       ⟨("Clare"), 0, 0, ("Cases by county")⟩] : List Information).length =
      ([⟨("Dublin"), 10, 0, ("Cases by county")⟩,
        ⟨("Cork"), 5, 0, ("Cases by county")⟩,
        ⟨("Clare"), 0, 0, ("Cases by county")⟩] : List Information).length ∧
    (∀ (i : ℕ)
      (h1 : i < ([⟨("Dublin"), 10, 0, ("Cases by county")⟩,
        ⟨("Cork"), 5, 0, ("Cases by county")⟩,
        ⟨("Clare"), 0, 0, ("Cases by county")⟩] : List Information).length)
      (h2 : i < ([⟨("Dublin"), 10, (200/3 : ℚ), ("Cases by county")⟩,
        ⟨("Cork"), 5, (100/3 : ℚ), ("Cases by county")⟩,
        ⟨("Clare"), 0, 0, ("Cases by county")⟩] : List Information).length),
      isCounty ([⟨("Dublin"), 10, 0, ("Cases by county")⟩,
        ⟨("Cork"), 5, 0, ("Cases by county")⟩,
        ⟨("Clare"), 0, 0, ("Cases by county")⟩] : List Information)[i] = true →
        ([⟨("Dublin"), 10, (200/3 : ℚ), ("Cases by county")⟩,
          ⟨("Cork"), 5, (100/3 : ℚ), ("Cases by county")⟩,
          ⟨("Clare"), 0, 0, ("Cases by county")⟩] : List Information)[i].rate =
          ((([⟨("Dublin"), 10, 0, ("Cases by county")⟩,
            ⟨("Cork"), 5, 0, ("Cases by county")⟩,
            ⟨("Clare"), 0, 0, ("Cases by county")⟩] : List Information)[i].number : ℚ) /
            (countyTotal [⟨("Dublin"), 10, 0, ("Cases by county")⟩,
              ⟨("Cork"), 5, 0, ("Cases by county")⟩,
              ⟨("Clare"), 0, 0, ("Cases by county")⟩] : ℚ) * 100)) ∧
    (0 < countyTotal [⟨("Dublin"), 10, 0, ("Cases by county")⟩,
        ⟨("Cork"), 5, 0, ("Cases by county")⟩,
        ⟨("Clare"), 0, 0, ("Cases by county")⟩] →
      ((([⟨("Dublin"), 10, (200/3 : ℚ), ("Cases by county")⟩,
          ⟨("Cork"), 5, (100/3 : ℚ), ("Cases by county")⟩,
          ⟨("Clare"), 0, 0, ("Cases by county")⟩] : List Information).filter
            isCounty).map (fun r => r.rate)).sum = 100)) := by
  have hp : recomputeRates
      [⟨("Dublin"), 10, 0, ("Cases by county")⟩,
       ⟨("Cork"), 5, 0, ("Cases by county")⟩,
       ⟨("Clare"), 0, 0, ("Cases by county")⟩] =
    some
      [⟨("Dublin"), 10, (200/3 : ℚ), ("Cases by county")⟩,
       ⟨("Cork"), 5, (100/3 : ℚ), ("Cases by county")⟩,
       ⟨("Clare"), 0, 0, ("Cases by county")⟩] := by
    have h15 : countyTotal
        [⟨("Dublin"), 10, 0, ("Cases by county")⟩,
         ⟨("Cork"), 5, 0, ("Cases by county")⟩,
         ⟨("Clare"), 0, 0, ("Cases by county")⟩] = 15 := by decide
    have hany : ([⟨("Dublin"), 10, 0, ("Cases by county")⟩,
         ⟨("Cork"), 5, 0, ("Cases by county")⟩,
         ⟨("Clare"), 0, 0, ("Cases by county")⟩] : List Information).any isCounty = true := by
      decide
    have hc1 : isCounty ⟨("Dublin"), 10, 0, ("Cases by county")⟩ = true := by decide
    have hc2 : isCounty ⟨("Cork"), 5, 0, ("Cases by county")⟩ = true := by decide
    have hc3 : isCounty ⟨("Clare"), 0, 0, ("Cases by county")⟩ = true := by decide
    simp only [recomputeRates, h15, hany, updateCountyRate, hc1, hc2, hc3, if_true,
      List.map_cons, List.map_nil]
    norm_num
  exact ⟨hp, c2_county_rates_sum_to_100 _ _ hp⟩

/-- C8: the rate-recomputation pass is the only mutation after construction,
and it only ever changes the rate field of county-marked records: description,
count and category of every record survive unchanged, and every record whose
category does not contain the county marker is returned entirely unchanged. -/
theorem c8_recompute_frame (rs ws : List Information)
    (h : recomputeRates rs = some ws) :
    ws.length = rs.length ∧
    ∀ (i : ℕ) (h1 : i < rs.length) (h2 : i < ws.length),
      ws[i].description = rs[i].description ∧
      ws[i].number = rs[i].number ∧
      ws[i].info_type = rs[i].info_type ∧
      (isCounty rs[i] = false → ws[i] = rs[i]) := by
  have hws := recomputeRates_eq_map rs ws h
  subst hws
  refine ⟨List.length_map rs _, ?_⟩
  intro i h1 h2
  rw [List.getElem_map]
  unfold updateCountyRate
  cases hcty : isCounty rs[i] <;> simp

/-- Witness for C8: a snapshot with one county record and one non-county
record; the pass rewrites only the county rate and keeps the statistics record
identical. -/
theorem c8_recompute_frame_witness :
    recomputeRates
        [⟨("Dublin"), 10, 0, ("Cases by county")⟩,
         ⟨("Total"), 7, (3/2 : ℚ), ("Statistics")⟩] =
      some
        [⟨("Dublin"), 10, 100, ("Cases by county")⟩,
         ⟨("Total"), 7, (3/2 : ℚ), ("Statistics")⟩] ∧
    (([⟨("Dublin"), 10, 100, ("Cases by county")⟩,
       ⟨("Total"), 7, (3/2 : ℚ), ("Statistics")⟩] : List Information).length =
      ([⟨("Dublin"), 10, 0, ("Cases by county")⟩,
        ⟨("Total"), 7, (3/2 : ℚ), ("Statistics")⟩] : List Information).length ∧
    ∀ (i : ℕ)
      (h1 : i < ([⟨("Dublin"), 10, 0, ("Cases by county")⟩,
        ⟨("Total"), 7, (3/2 : ℚ), ("Statistics")⟩] : List Information).length)
      (h2 : i < ([⟨("Dublin"), 10, 100, ("Cases by county")⟩,
        ⟨("Total"), 7, (3/2 : ℚ), ("Statistics")⟩] : List Information).length),
      ([⟨("Dublin"), 10, 100, ("Cases by county")⟩,
        ⟨("Total"), 7, (3/2 : ℚ), ("Statistics")⟩] : List Information)[i].description =
        ([⟨("Dublin"), 10, 0, ("Cases by county")⟩,
          ⟨("Total"), 7, (3/2 : ℚ), ("Statistics")⟩] : List Information)[i].description ∧
      ([⟨("Dublin"), 10, 100, ("Cases by county")⟩,
        ⟨("Total"), 7, (3/2 : ℚ), ("Statistics")⟩] : List Information)[i].number =
        ([⟨("Dublin"), 10, 0, ("Cases by county")⟩,
          ⟨("Total"), 7, (3/2 : ℚ), ("Statistics")⟩] : List Information)[i].number ∧
      ([⟨("Dublin"), 10, 100, ("Cases by county")⟩,
        ⟨("Total"), 7, (3/2 : ℚ), ("Statistics")⟩] : List Information)[i].info_type =
        ([⟨("Dublin"), 10, 0, ("Cases by county")⟩,
          ⟨("Total"), 7, (3/2 : ℚ), ("Statistics")⟩] : List Information)[i].info_type ∧
      (isCounty ([⟨("Dublin"), 10, 0, ("Cases by county")⟩,
          ⟨("Total"), 7, (3/2 : ℚ), ("Statistics")⟩] : List Information)[i] = false →
        ([⟨("Dublin"), 10, 100, ("Cases by county")⟩,
          ⟨("Total"), 7, (3/2 : ℚ), ("Statistics")⟩] : List Information)[i] =
          ([⟨("Dublin"), 10, 0, ("Cases by county")⟩,
            ⟨("Total"), 7, (3/2 : ℚ), ("Statistics")⟩] : List Information)[i])) := by
  have hp : recomputeRates
      [⟨("Dublin"), 10, 0, ("Cases by county")⟩,
       ⟨("Total"), 7, (3/2 : ℚ), ("Statistics")⟩] =
    some
      [⟨("Dublin"), 10, 100, ("Cases by county")⟩,
       ⟨("Total"), 7, (3/2 : ℚ), ("Statistics")⟩] := by
    have h10 : countyTotal
        [⟨("Dublin"), 10, 0, ("Cases by county")⟩,
         ⟨("Total"), 7, (3/2 : ℚ), ("Statistics")⟩] = 10 := by decide
    have hany : ([⟨("Dublin"), 10, 0, ("Cases by county")⟩,
         ⟨("Total"), 7, (3/2 : ℚ), ("Statistics")⟩] : List Information).any isCounty = true := by
      decide
    have hc1 : isCounty ⟨("Dublin"), 10, 0, ("Cases by county")⟩ = true := by decide
    have hc2 : isCounty ⟨("Total"), 7, (3/2 : ℚ), ("Statistics")⟩ = false := by decide
    simp only [recomputeRates, h10, hany, updateCountyRate, hc1, hc2, if_true,
      Bool.false_eq_true, if_false, List.map_cons, List.map_nil]
    norm_num
  exact ⟨hp, c8_recompute_frame _ _ hp⟩

/-! ### Round-trip of the display rendering -/

theorem isDigit_isNumChar {c : Char} (h : c.isDigit = true) : isNumChar c = true := by
  simp only [isNumChar, h, Bool.true_or]

theorem isDigit_not_comma {c : Char} (h : c.isDigit = true) : (c == ',') = false := by
  cases hb : c == ',' with
  | false => rfl
  | true =>
    have hc : c = ',' := by simpa using hb
    subst hc
    exact absurd h (by decide)

theorem isDigit_not_dot {c : Char} (h : c.isDigit = true) : (c == '.') = false := by
  cases hb : c == '.' with
  | false => rfl
  | true =>
    have hc : c = '.' := by simpa using hb
    subst hc
    exact absurd h (by decide)

theorem firstRun_append_of_pos (l₁ l₂ : List Char) (h₁ : l₁ ≠ [])
    (h : ∀ c ∈ l₁, isNumChar c = true) :
    firstRun (l₁ ++ l₂) = some (l₁ ++ l₂.takeWhile isNumChar) := by
  cases l₁ with
  | nil => exact absurd rfl h₁
  | cons c cs =>
    simp only [List.cons_append, firstRun, h c (List.mem_cons_self c cs), if_true,
      List.append_eq]
    rw [List.takeWhile_append_of_pos (fun a ha => h a (List.mem_cons_of_mem c ha))]

theorem digitChar_isDigit (d : Nat) (hd : d < 10) : (Nat.digitChar d).isDigit = true := by
  interval_cases d <;> decide

theorem digitChar_toNat (d : Nat) (hd : d < 10) : (Nat.digitChar d).toNat - 48 = d := by
  interval_cases d <;> decide

theorem natRepr_data (n : Nat) :
    (natRepr n).data =
      if n = 0 then [Nat.digitChar 0] else (Nat.digits 10 n).reverse.map Nat.digitChar := rfl

theorem natRepr_all_digits (n : Nat) : ∀ c ∈ (natRepr n).data, c.isDigit = true := by
  intro c hc
  rw [natRepr_data] at hc
  by_cases h0 : n = 0
  · rw [if_pos h0] at hc
    have : c = Nat.digitChar 0 := by simpa using hc
    subst this
    decide
  · rw [if_neg h0] at hc
    obtain ⟨d, hd, hdc⟩ := List.mem_map.mp hc
    have hdlt : d < 10 := Nat.digits_lt_base (by norm_num) (List.mem_reverse.mp hd)
    rw [← hdc]
    exact digitChar_isDigit d hdlt

theorem natRepr_ne_nil (n : Nat) : (natRepr n).data ≠ [] := by
  rw [natRepr_data]
  by_cases h0 : n = 0
  · rw [if_pos h0]; simp
  · rw [if_neg h0]
    simp only [ne_eq, List.map_eq_nil_iff, List.reverse_eq_nil_iff]
    exact Nat.digits_ne_nil_iff_ne_zero.mpr h0

theorem foldl_mul_add (l : List Nat) (a : Nat) :
    l.foldl (fun x d => x * 10 + d) a = a * 10 ^ l.length + Nat.ofDigits 10 l.reverse := by
  induction l generalizing a with
  | nil => simp
  | cons d t ih =>
    simp only [List.foldl_cons, ih, List.reverse_cons, Nat.ofDigits_append,
      List.length_cons, List.length_reverse, Nat.ofDigits_singleton]
    ring

theorem digitsVal_natRepr (n : Nat) : digitsVal ((natRepr n).data) = n := by
  by_cases h0 : n = 0
  · subst h0; decide
  · rw [digitsVal, natRepr_data, if_neg h0, List.foldl_map]
    have hext : ((Nat.digits 10 n).reverse).foldl
          (fun x d => x * 10 + ((Nat.digitChar d).toNat - 48)) 0 =
        ((Nat.digits 10 n).reverse).foldl (fun x d => x * 10 + d) 0 := by
      apply List.foldl_ext
      intro a d hd
      rw [digitChar_toNat d (Nat.digits_lt_base (by norm_num) (List.mem_reverse.mp hd))]
    rw [hext, foldl_mul_add, List.reverse_reverse, Nat.ofDigits_digits]
    simp

theorem firstRun_all (l : List Char) (hne : l ≠ [])
    (h : ∀ c ∈ l, isNumChar c = true) : firstRun l = some l := by
  have := firstRun_append_of_pos l [] hne h
  simpa using this

theorem extractInt_natRepr (n : Nat) : extractInt (natRepr n) = some n := by
  have hd := natRepr_all_digits n
  have hrun : firstRun ((natRepr n).data) = some ((natRepr n).data) :=
    firstRun_all _ (natRepr_ne_nil n) (fun c hc => isDigit_isNumChar (hd c hc))
  have hstep : extractInt (natRepr n) = pyIntOfRun ((natRepr n).data) := by
    unfold extractInt
    rw [hrun]
  rw [hstep]
  unfold pyIntOfRun
  rw [if_pos]
  · rw [digitsVal_natRepr]
  · rw [Bool.and_eq_true, List.all_eq_true, Bool.not_eq_true', List.isEmpty_eq_false]
    exact ⟨fun c hc => hd c hc, natRepr_ne_nil n⟩

theorem pad3_data (n : Nat) :
    (pad3 n).data =
      (if n < 10 then ("00") else if n < 100 then ("0") else ("")).data ++
        (natRepr n).data := by
  rw [pad3, String.data_append]

theorem pad3_all_digits (n : Nat) : ∀ c ∈ (pad3 n).data, c.isDigit = true := by
  intro c hc
  rw [pad3_data] at hc
  rcases List.mem_append.mp hc with h | h
  · split at h
    · have : c = Char.ofNat 48 := by
        have h00 : (("00") : String).data = [Char.ofNat 48, Char.ofNat 48] := by decide
        rw [h00] at h
        rcases List.mem_cons.mp h with h1 | h1
        · exact h1
        · simpa using h1
      subst this
      decide
    · split at h
      · have : c = Char.ofNat 48 := by
          have h0 : (("0") : String).data = [Char.ofNat 48] := by decide
          rw [h0] at h
          simpa using h
        subst this
        decide
      · have hnil : (("") : String).data = [] := rfl
        rw [hnil] at h
        simp at h
  · exact natRepr_all_digits n c h

theorem pyFloatOfRun_digits_dot (ip pd : List Char)
    (hip : ∀ c ∈ ip, c.isDigit = true) (hpd : ∀ c ∈ pd, c.isDigit = true)
    (hne : ip ≠ []) :
    ∃ r, pyFloatOfRun (ip ++ Char.ofNat 46 :: pd) = some r := by
  have hdot : (Char.ofNat 46) = '.' := rfl
  have h1 : (ip ++ Char.ofNat 46 :: pd).any (fun c => c == ',') = false := by
    rw [List.any_eq_false]
    intro x hx
    rcases List.mem_append.mp hx with h | h
    · simp [isDigit_not_comma (hip x h)]
    · rcases List.mem_cons.mp h with h2 | h2
      · subst h2; decide
      · simp [isDigit_not_comma (hpd x h2)]
  have h2 : (ip ++ Char.ofNat 46 :: pd).any Char.isDigit = true := by
    rw [List.any_eq_true]
    cases ip with
    | nil => exact absurd rfl hne
    | cons a as =>
      exact ⟨a, List.mem_append_left _ (List.mem_cons_self a as),
        hip a (List.mem_cons_self a as)⟩
  have h3 : (ip ++ Char.ofNat 46 :: pd).filter (fun c => c == '.') = ['.'] := by
    rw [List.filter_append, List.filter_cons]
    have hipf : ip.filter (fun c => c == '.') = [] := by
      rw [List.filter_eq_nil_iff]
      intro a ha
      simp [isDigit_not_dot (hip a ha)]
    have hpdf : pd.filter (fun c => c == '.') = [] := by
      rw [List.filter_eq_nil_iff]
      intro a ha
      simp [isDigit_not_dot (hpd a ha)]
    rw [hipf, hpdf]
    simp
  unfold pyFloatOfRun
  rw [h1, h2, h3]
  simp only [Bool.false_eq_true, if_false, Bool.not_true, List.length_cons,
    List.length_nil]
  rw [if_neg (by norm_num)]
  exact ⟨_, rfl⟩

theorem fmt3_append_percent_data (q : ℚ) :
    (fmt3 q ++ ("%")).data =
      (if q < 0 then ("-") else ("")).data ++
        ((natRepr ((roundHalfEven (|q| * 1000)).toNat / 1000)).data ++
          (Char.ofNat 46 ::
            ((pad3 ((roundHalfEven (|q| * 1000)).toNat % 1000)).data ++
              [Char.ofNat 37]))) := by
  rw [fmt3]
  simp only [String.data_append, List.append_assoc]
  rfl

theorem extractFloat_fmt3_percent (q : ℚ) :
    ∃ r, extractFloat (fmt3 q ++ ("%")) = some r := by
  have hip := natRepr_all_digits ((roundHalfEven (|q| * 1000)).toNat / 1000)
  have hpd := pad3_all_digits ((roundHalfEven (|q| * 1000)).toNat % 1000)
  have hne := natRepr_ne_nil ((roundHalfEven (|q| * 1000)).toNat / 1000)
  obtain ⟨r, hr⟩ :=
    pyFloatOfRun_digits_dot
      ((natRepr ((roundHalfEven (|q| * 1000)).toNat / 1000)).data)
      ((pad3 ((roundHalfEven (|q| * 1000)).toNat % 1000)).data) hip hpd hne
  have hall : ∀ c ∈ (natRepr ((roundHalfEven (|q| * 1000)).toNat / 1000)).data ++
      Char.ofNat 46 :: (pad3 ((roundHalfEven (|q| * 1000)).toNat % 1000)).data,
      isNumChar c = true := by
    intro c hc
    rcases List.mem_append.mp hc with h | h
    · exact isDigit_isNumChar (hip c h)
    · rcases List.mem_cons.mp h with h2 | h2
      · subst h2; decide
      · exact isDigit_isNumChar (hpd c h2)
  have hne2 : (natRepr ((roundHalfEven (|q| * 1000)).toNat / 1000)).data ++
      Char.ofNat 46 :: (pad3 ((roundHalfEven (|q| * 1000)).toNat % 1000)).data ≠ [] := by
    simp
  have hrun : firstRun
      ((natRepr ((roundHalfEven (|q| * 1000)).toNat / 1000)).data ++
        (Char.ofNat 46 ::
          ((pad3 ((roundHalfEven (|q| * 1000)).toNat % 1000)).data ++ [Char.ofNat 37]))) =
      some ((natRepr ((roundHalfEven (|q| * 1000)).toNat / 1000)).data ++
        Char.ofNat 46 :: (pad3 ((roundHalfEven (|q| * 1000)).toNat % 1000)).data) := by
    have hshape :
        ((natRepr ((roundHalfEven (|q| * 1000)).toNat / 1000)).data ++
          Char.ofNat 46 :: (pad3 ((roundHalfEven (|q| * 1000)).toNat % 1000)).data) ++
            [Char.ofNat 37] =
        (natRepr ((roundHalfEven (|q| * 1000)).toNat / 1000)).data ++
          (Char.ofNat 46 ::
            ((pad3 ((roundHalfEven (|q| * 1000)).toNat % 1000)).data ++ [Char.ofNat 37])) := by
      simp [List.append_assoc]
    rw [← hshape, firstRun_append_of_pos _ _ hne2 hall]
    have ht : List.takeWhile isNumChar [Char.ofNat 37] = [] := by decide
    rw [ht, List.append_nil]
  refine ⟨r, ?_⟩
  unfold extractFloat
  rw [fmt3_append_percent_data]
  by_cases hq : q < 0
  · rw [if_pos hq]
    have hminus : (("-") : String).data = [Char.ofNat 45] := by decide
    rw [hminus, List.singleton_append]
    have h45 : isNumChar (Char.ofNat 45) = false := by decide
    rw [show firstRun
        (Char.ofNat 45 ::
          ((natRepr ((roundHalfEven (|q| * 1000)).toNat / 1000)).data ++
            (Char.ofNat 46 ::
              ((pad3 ((roundHalfEven (|q| * 1000)).toNat % 1000)).data ++ [Char.ofNat 37])))) =
        firstRun
          ((natRepr ((roundHalfEven (|q| * 1000)).toNat / 1000)).data ++
            (Char.ofNat 46 ::
              ((pad3 ((roundHalfEven (|q| * 1000)).toNat % 1000)).data ++ [Char.ofNat 37])))
      from by simp only [firstRun, h45, Bool.false_eq_true, if_false]]
    rw [hrun]
    exact hr
  · rw [if_neg hq]
    have hempty : (("") : String).data = [] := rfl
    rw [hempty, List.nil_append, hrun]
    exact hr

/-- C9: rendering a Record to its display string
category - description: count (rate%) and re-parsing the description, count
and rate parts through the Record constructor succeeds and reproduces the same
count; the display string decomposes into exactly those parts. -/
theorem c9_display_round_trip (i : Information) :
    i.toDisplayString =
      i.info_type ++ (" - ") ++ i.description ++ (": ") ++ natRepr i.number ++
        (" (") ++ (fmt3 i.rate ++ ("%")) ++ (")") ∧
    ∃ j, Information.init i.description (natRepr i.number) (fmt3 i.rate ++ ("%"))
        i.info_type = some j ∧ j.number = i.number := by
  constructor
  · apply String.ext
    simp only [Information.toDisplayString, String.data_append, List.append_assoc]
    rfl
  · obtain ⟨r, hr⟩ := extractFloat_fmt3_percent i.rate
    refine ⟨⟨i.description, i.number, r, i.info_type⟩, ?_, rfl⟩
    rw [Information.init]
    simp only [extractInt_natRepr, hr, Option.bind_eq_bind, Option.some_bind]
    rfl
